import Mathlib

/-!
Verification of the charge-lnd policy engine (`charge_lnd/policy.py`).

The Python source is shallowly embedded: each function of `policy.py` becomes
an executable Lean definition with the same name; Python exceptions become
`Except String`; the LND gateway, the file system and the raw policy sections
(external collaborators of the core) become explicit record/function
parameters.  Machine integers are modelled as `Int` (Python ints are
unbounded); Python float division for the balance ratio is modelled over `Rat`.
-/

deriving instance DecidableEq for Except

namespace ChargeLnd

/-! ### Python string primitives

The Python string operations used by `policy.py` (`str.split`, `str.strip`,
`str.splitlines`, `str.replace`, `str.startswith`, `int(...)`) are embedded as
structurally recursive functions over character lists, following Python's
semantics. -/

/-- Python whitespace, as stripped by `str.strip()`. -/
def pySpace (c : Char) : Bool :=
  c = ' ' || c = '\t' || c = '\n' || c = '\r' || c = '\x0b' || c = '\x0c'

/-- Python `str.strip()`. -/
def pyStrip (l : List Char) : List Char :=
  ((l.dropWhile pySpace).reverse.dropWhile pySpace).reverse

/-- Worker for `pySplit`. -/
def pySplitAux (sep : Char) : List Char → List Char → List String
  | [], cur => [String.mk cur.reverse]
  | c :: rest, cur =>
    if c = sep then String.mk cur.reverse :: pySplitAux sep rest []
    else pySplitAux sep rest (c :: cur)

/-- Python `str.split(sep)` for a one-character separator. -/
def pySplit (sep : Char) (s : String) : List String :=
  pySplitAux sep s.toList []

/-- Worker for `pySplitLines`. -/
def pySplitLinesAux : List Char → List Char → List String
  | [], [] => []
  | [], cur => [String.mk cur.reverse]
  | '\r' :: '\n' :: rest, cur => String.mk cur.reverse :: pySplitLinesAux rest []
  | '\n' :: rest, cur => String.mk cur.reverse :: pySplitLinesAux rest []
  | '\r' :: rest, cur => String.mk cur.reverse :: pySplitLinesAux rest []
  | c :: rest, cur => pySplitLinesAux rest (c :: cur)

/-- Python `str.splitlines()` (restricted to the `\n`, `\r`, `\r\n`
terminators; a trailing terminator produces no trailing empty line). -/
def pySplitLines (l : List Char) : List String :=
  pySplitLinesAux l []

/-- Worker for `pyReplace`, fueled to stay structurally recursive; the fuel is
the length of the scanned list, and the patterns used in this file are
nonempty. -/
def pyReplaceAux (pat rep : List Char) : Nat → List Char → List Char
  | _, [] => []
  | 0, l => l
  | fuel + 1, c :: rest =>
    if pat.isPrefixOf (c :: rest) then
      rep ++ pyReplaceAux pat rep fuel ((c :: rest).drop pat.length)
    else c :: pyReplaceAux pat rep fuel rest

/-- Python `str.replace(pat, rep)`: replace all non-overlapping occurrences,
left to right. -/
def pyReplace (s pat rep : String) : String :=
  String.mk (pyReplaceAux pat.toList rep.toList s.toList.length s.toList)

/-- Python `str.startswith(pre)`. -/
def pyStartsWith (pre s : String) : Bool :=
  pre.toList.isPrefixOf s.toList

/-- Decimal digit-run parser: `none` unless the list is a nonempty run of
ASCII digits. -/
def digitsToNat? (l : List Char) : Option Nat :=
  if l.isEmpty then none else go l 0
where
  go : List Char → Nat → Option Nat
    | [], acc => some acc
    | c :: rest, acc =>
      if c.isDigit then go rest (acc * 10 + (c.toNat - '0'.toNat)) else none

/-- Python `int(s)` for string arguments: optional surrounding whitespace, an
optional sign, then a nonempty digit run; `none` models the ValueError. -/
def pyToInt? (s : String) : Option Int :=
  match pyStrip s.toList with
  | '+' :: rest => (digitsToNat? rest).map (fun n => (n : Int))
  | '-' :: rest => (digitsToNat? rest).map (fun n => -(n : Int))
  | l => (digitsToNat? l).map (fun n => (n : Int))

/-- A configuration value of a Raw Policy Section.  The section itself is an
external collaborator (configuration parsing is out of scope of the core); its
typed accessors `get/getint/getfloat/getboolean/getlist` are modelled on the
interface contract of spec section 6. -/
inductive Val where
  | str : String → Val
  | int : Int → Val
  | rat : Rat → Val
  | bool : Bool → Val
  | list : List String → Val
deriving Repr, DecidableEq

/-- Python truthiness of a configuration value (`if strategy:` in the source). -/
def Val.truthy : Val → Bool
  | .str s => s ≠ ""
  | .int i => i ≠ 0
  | .rat q => q ≠ 0
  | .bool b => b
  | .list l => !l.isEmpty

/-- `getint`-style access: the value as a Python int, or a ValueError. -/
def Val.toIntE : Val → Except String Int
  | .int i => .ok i
  | .str s =>
    match pyToInt? s with
    | some i => .ok i
    | none => .error "ValueError"
  | _ => .error "ValueError"

/-- `getfloat`-style access: the value as a number, or a ValueError. -/
def Val.toRatE : Val → Except String Rat
  | .rat q => .ok q
  | .int i => .ok (i : Rat)
  | _ => .error "ValueError"

/-- `getboolean`-style access. -/
def Val.toBoolE : Val → Except String Bool
  | .bool b => .ok b
  | _ => .error "ValueError"

/-- plain `get`-style access (configuration values are strings in the source). -/
def Val.toStrE : Val → Except String String
  | .str s => .ok s
  | _ => .error "ValueError"

/-- `getlist`-style access (spec section 6: ordered sequence of strings). -/
def Val.toListE : Val → Except String (List String)
  | .list l => .ok l
  | _ => .error "ValueError"

/-- A Raw Policy Section: an insertion-ordered mapping from dotted option keys
to values, as produced by the external configuration provider. -/
abbrev Config := List (String × Val)

/-- Key lookup, first match (keys are unique in a parsed section). -/
def Config.lookup : Config → String → Option Val
  | [], _ => none
  | kv :: rest, k => if kv.1 = k then some kv.2 else Config.lookup rest k

/-- Python `key in config`. -/
def Config.containsKey (c : Config) (k : String) : Bool :=
  (c.lookup k).isSome

/-- Python `dict.__setitem__`: update an existing key in place, else append. -/
def Config.insert : Config → String → Val → Config
  | [], k, v => [(k, v)]
  | kv :: rest, k, v =>
    if kv.1 = k then (k, v) :: rest else kv :: Config.insert rest k v

/-- The keys of a section, in declaration order (`config.keys()`). -/
def Config.keyList (c : Config) : List String :=
  c.map Prod.fst

/-- `Policy.apply`: mask a section over an accumulated configuration,
key by key, in the section's order (later keys overwrite earlier ones). -/
def Config.mergeInto (acc c : Config) : Config :=
  c.foldl (fun a kv => Config.insert a kv.1 kv.2) acc

/-- A channel record handed in by the caller (external collaborator). -/
structure Channel where
  chan_id : Nat
  remote_pubkey : String
  capacity : Int
  local_balance : Int
  remote_balance : Int
  initiator : Bool
  «private» : Bool
deriving Repr, DecidableEq

/-- `get_node_info` result: aggregate statistics of the remote node. -/
structure NodeInfo where
  num_channels : Int
  total_capacity : Int
deriving Repr, DecidableEq

/-- One side's advertised routing policy inside a `get_chan_info` record. -/
structure RoutingPolicy where
  fee_base_msat : Int
  fee_rate_milli_msat : Int
deriving Repr, DecidableEq

/-- `get_chan_info` result. -/
structure ChanInfo where
  node1_pub : String
  node2_pub : String
  node1_policy : RoutingPolicy
  node2_policy : RoutingPolicy
deriving Repr, DecidableEq

/-- `get_info` result. -/
structure LndInfo where
  block_height : Int
deriving Repr, DecidableEq

/-- `get_forward_history` result. -/
structure FwdStats where
  htlc_in : Int
  htlc_out : Int
  sat_in : Int
  sat_out : Int
deriving Repr, DecidableEq

/-- The LND gateway (external collaborator, spec section 6).  `get_chan_info`
and `get_info` may return nothing (the source checks their results for
falsiness); the source uses the other calls unconditionally. -/
structure Lnd where
  get_node_info : String → NodeInfo
  get_chan_info : Nat → Option ChanInfo
  get_own_pubkey : String
  get_info : Option LndInfo
  get_forward_history : Nat → Int → FwdStats

/-- The file system seen by the identifier-list loaders: maps a path to its
contents, or `none` when opening the file raises an IO error. -/
abbrev FS := String → Option String

/-- Modelled from the spec: `fmt.parse_channel_id` of the external Channel-id
Formatter (spec section 6), absent from src.  It parses text to an internal id
and fails on malformed input; modelled minimally as a decimal numeral parser. -/
def parse_channel_id (s : String) : Except String Nat :=
  match digitsToNat? s.toList with
  | some n => .ok n
  | none => .error ("Invalid channel id " ++ s)

/-- Modelled from the spec: `fmt.lnd_to_cl_scid` of the external Channel-id
Formatter (spec section 6, `to_block_tx_output`): splits a short channel id
into (block, tx_index, output_index) using the standard scid bit layout. -/
def lnd_to_cl_scid (n : Nat) : Nat × Nat × Nat :=
  (n / 2 ^ 40, n / 2 ^ 16 % 2 ^ 24, n % 2 ^ 16)

/-- Python `str.splitlines()` applied after `replace(',', '\n')` in the
loaders: commas and line breaks all become entry separators. -/
def splitIds (contents : String) : List String :=
  pySplitLines (contents.toList.map (fun c => if c = ',' then '\n' else c))

/-- The cleanup applied to each raw entry: `raw_id.split('#')[0].strip()`. -/
def cleanId (raw : String) : String :=
  String.mk (pyStrip (raw.toList.takeWhile (fun c => c ≠ '#')))

/-- The pubkey validation regex of `read_nodelist`: `^([0-9a-z]{66})$`. -/
def pubkeyTokenOk (s : String) : Bool :=
  s.length = 66 && s.toList.all (fun c => c.isDigit || ('a' ≤ c && c ≤ 'z'))

/-- `read_nodelist`: read a pubkey list file; a file-open failure propagates
(modelled as an error), every entry failing the regex is dropped. -/
def read_nodelist (fs : FS) (url : String) : Except String (List String) :=
  match fs (pyReplace url "file://" "") with
  | none => .error ("IOError " ++ url)
  | some contents =>
    .ok ((splitIds contents).foldl
      (fun acc raw =>
        let t := cleanId raw
        if pubkeyTokenOk t then acc ++ [t] else acc) [])

/-- `read_chanlist`: read a channel-id list file; a file-open failure
propagates, entries failing `parse_channel_id` are dropped (the bare
`except:` in the source swallows the parse failure). -/
def read_chanlist (fs : FS) (url : String) : Except String (List Nat) :=
  match fs (pyReplace url "file://" "") with
  | none => .error ("IOError " ++ url)
  | some contents =>
    .ok ((splitIds contents).foldl
      (fun acc raw =>
        match parse_channel_id (cleanId raw) with
        | .ok c => acc ++ [c]
        | .error _ => acc) [])

/-- The suffix multiplier table of `parse_activity_period`
(`mulmap` in the source); `none` models a KeyError on lookup. -/
def mulmap (c : Char) : Option Int :=
  if c = 's' then some 1
  else if c = 'm' then some 60
  else if c = 'h' then some (60 * 60)
  else if c = 'd' then some (60 * 60 * 24)
  else none

/-- `Policies.parse_activity_period`: a raw integer is seconds; otherwise the
last character selects a multiplier from `mulmap` (KeyError on a bad suffix)
applied to the integer prefix. -/
def parse_activity_period (period : String) : Except String Int :=
  match pyToInt? period with
  | some n => .ok n
  | none =>
    match period.toList.getLast? with
    | none => .error "IndexError"
    | some last =>
      match mulmap last with
      | none => .error "KeyError"
      | some mult =>
        match pyToInt? (String.mk period.toList.dropLast) with
        | some n => .ok (n * mult)
        | none => .error "ValueError"

/-- Sequencing of a criterion in a matcher body: the source pattern
`if <criterion fails>: return False` followed by the rest.  `a` evaluates the
criterion (`ok false` means the early `return False` fired, an error is a
raised exception), `b` is the rest of the matcher body. -/
def candM (a b : Except String Bool) : Except String Bool :=
  match a with
  | .error e => .error e
  | .ok true => b
  | .ok false => .ok false

/-- One bound check of the form
`if key in config and not <test>(config.getint(key)): return False`. -/
def checkInt (conf : Config) (key : String) (test : Int → Bool) :
    Except String Bool :=
  match conf.lookup key with
  | none => .ok true
  | some v =>
    match v.toIntE with
    | .error e => .error e
    | .ok n => .ok (test n)

/-- One bound check reading its bound with `getfloat`. -/
def checkRat (conf : Config) (key : String) (test : Rat → Bool) :
    Except String Bool :=
  match conf.lookup key with
  | none => .ok true
  | some v =>
    match v.toRatE with
    | .error e => .error e
    | .ok q => .ok (test q)

/-- One flag check reading its value with `getboolean`. -/
def checkBool (conf : Config) (key : String) (test : Bool → Bool) :
    Except String Bool :=
  match conf.lookup key with
  | none => .ok true
  | some v =>
    match v.toBoolE with
    | .error e => .error e
    | .ok b => .ok (test b)

/-- The accepted `node.*` suffixes of `match_by_node`. -/
def acceptedNode : List String :=
  ["id", "min_channels", "max_channels", "min_capacity", "max_capacity"]

/-- The accepted `chan.*` suffixes of `match_by_chan`. -/
def acceptedChan : List String :=
  ["id", "initiator", "private",
   "min_ratio", "max_ratio",
   "min_capacity", "max_capacity",
   "min_local_balance", "max_local_balance",
   "min_remote_balance", "max_remote_balance",
   "min_base_fee_msat", "max_base_fee_msat",
   "min_fee_ppm", "max_fee_ppm",
   "min_age", "max_age",
   "activity_period",
   "min_htlcs_in", "max_htlcs_in",
   "min_htlcs_out", "max_htlcs_out",
   "min_sats_in", "max_sats_in",
   "min_sats_out", "max_sats_out"]

/-- The schema check opening both matchers: for every key whose first dotted
component equals the namespace, the second component must be in the accepted
set, else `Unknown property` is raised; a key equal to the bare namespace
raises an IndexError (`key.split(".")[1]` on a dotless key). -/
def keysCheck (ns : String) (accepted : List String) : Config →
    Except String Unit
  | [] => .ok ()
  | kv :: rest =>
    let parts := pySplit '.' kv.1
    if parts.headI = ns then
      match parts.get? 1 with
      | none => .error "IndexError"
      | some suf =>
        if accepted.any (fun a => a = suf) then keysCheck ns accepted rest
        else .error ("Unknown property " ++ kv.1)
    else keysCheck ns accepted rest

/-- `node.id` / `chan.id` list expansion: `file://` entries are loaded through
a loader, other entries are transformed literally; the first loader or parse
error propagates. -/
def expandList {α : Type} (loadFile : String → Except String (List α))
    (literal : String → Except String (List α)) :
    List String → Except String (List α)
  | [] => .ok []
  | it :: rest =>
    match (if pyStartsWith "file://" it then loadFile it else literal it) with
    | .error e => .error e
    | .ok l =>
      match expandList loadFile literal rest with
      | .error e => .error e
      | .ok ls => .ok (l ++ ls)

/-- The `node.id` membership criterion of `match_by_node`. -/
def nodeIdCheck (fs : FS) (channel : Channel) (conf : Config) :
    Except String Bool :=
  match conf.lookup "node.id" with
  | none => .ok true
  | some v =>
    match v.toListE with
    | .error e => .error e
    | .ok items =>
      match expandList (read_nodelist fs) (fun it => .ok [it]) items with
      | .error e => .error e
      | .ok node_list => .ok (node_list.any (fun x => x = channel.remote_pubkey))

/-- `Policies.match_by_node`: schema check, `node.id` membership, then the
four inclusive bounds against the remote node's aggregate statistics. -/
def match_by_node (lnd : Lnd) (fs : FS) (channel : Channel) (conf : Config) :
    Except String Bool :=
  match keysCheck "node" acceptedNode conf with
  | .error e => .error e
  | .ok _ =>
    candM (nodeIdCheck fs channel conf)
      (let ni := lnd.get_node_info channel.remote_pubkey
       candM (checkInt conf "node.min_channels" (fun v => v ≤ ni.num_channels))
      (candM (checkInt conf "node.max_channels" (fun v => ni.num_channels ≤ v))
      (candM (checkInt conf "node.min_capacity" (fun v => v ≤ ni.total_capacity))
             (checkInt conf "node.max_capacity" (fun v => ni.total_capacity ≤ v)))))

/-- The `chan.id` membership criterion of `match_by_chan`. -/
def chanIdCheck (fs : FS) (channel : Channel) (conf : Config) :
    Except String Bool :=
  match conf.lookup "chan.id" with
  | none => .ok true
  | some v =>
    match v.toListE with
    | .error e => .error e
    | .ok items =>
      match expandList (read_chanlist fs)
          (fun it => (parse_channel_id it).map (fun c => [c])) items with
      | .error e => .error e
      | .ok chan_list => .ok (chan_list.any (fun x => x = channel.chan_id))

/-- The `chan.initiator` / `chan.private` equality criteria. -/
def chanFlagChecks (channel : Channel) (conf : Config) : Except String Bool :=
  candM (checkBool conf "chan.initiator" (fun b => channel.initiator == b))
        (checkBool conf "chan.private" (fun b => channel.«private» == b))

/-- Lines 201-217 of the source: the balance ratio is computed before any
ratio bound is looked up — `local_balance/(local_balance + remote_balance)`
raises ZeroDivisionError when the denominator is zero — followed by the
inclusive ratio, capacity and balance bounds. -/
def balanceChecks (channel : Channel) (conf : Config) : Except String Bool :=
  if channel.local_balance + channel.remote_balance = 0 then
    .error "ZeroDivisionError"
  else
    let r : Rat := (channel.local_balance : Rat) /
      ((channel.local_balance : Rat) + (channel.remote_balance : Rat))
    candM (checkRat conf "chan.max_ratio" (fun q => decide (r ≤ q)))
   (candM (checkRat conf "chan.min_ratio" (fun q => decide (q ≤ r)))
   (candM (checkInt conf "chan.max_capacity" (fun v => channel.capacity ≤ v))
   (candM (checkInt conf "chan.min_capacity" (fun v => v ≤ channel.capacity))
   (candM (checkInt conf "chan.max_local_balance" (fun v => channel.local_balance ≤ v))
   (candM (checkInt conf "chan.min_local_balance" (fun v => v ≤ channel.local_balance))
   (candM (checkInt conf "chan.max_remote_balance" (fun v => channel.remote_balance ≤ v))
          (checkInt conf "chan.min_remote_balance" (fun v => v ≤ channel.remote_balance))))))))

/-- Lines 219-232 of the source: fetch the channel info (absence is a
non-match), select the peer side's advertised policy, then the inclusive
base-fee and fee-ppm bounds. -/
def feeChecks (lnd : Lnd) (channel : Channel) (conf : Config) :
    Except String Bool :=
  match lnd.get_chan_info channel.chan_id with
  | none => .ok false
  | some ci =>
    let pol := if ci.node2_pub == lnd.get_own_pubkey
               then ci.node1_policy else ci.node2_policy
    candM (checkInt conf "chan.min_base_fee_msat" (fun v => v ≤ pol.fee_base_msat))
   (candM (checkInt conf "chan.max_base_fee_msat" (fun v => pol.fee_base_msat ≤ v))
   (candM (checkInt conf "chan.min_fee_ppm" (fun v => v ≤ pol.fee_rate_milli_msat))
          (checkInt conf "chan.max_fee_ppm" (fun v => pol.fee_rate_milli_msat ≤ v))))

/-- Lines 244-279 of the source: the `chan.activity_period` criterion — parse
the window (errors propagate), fetch the forward history, fail the match when
the channel's estimated age in seconds is below the window, then the inclusive
htlc and sat bounds. -/
def activityChecks (lnd : Lnd) (channel : Channel) (conf : Config)
    (age : Int) : Except String Bool :=
  match conf.lookup "chan.activity_period" with
  | none => .ok true
  | some v =>
    match v.toStrE with
    | .error e => .error e
    | .ok ptxt =>
      match parse_activity_period ptxt with
      | .error e => .error e
      | .ok seconds =>
        let fwds := lnd.get_forward_history channel.chan_id seconds
        if age * (10 * 60) < seconds then .ok false
        else
          candM (checkInt conf "chan.max_htlcs_in" (fun v2 => fwds.htlc_in ≤ v2))
         (candM (checkInt conf "chan.min_htlcs_in" (fun v2 => v2 ≤ fwds.htlc_in))
         (candM (checkInt conf "chan.max_htlcs_out" (fun v2 => fwds.htlc_out ≤ v2))
         (candM (checkInt conf "chan.min_htlcs_out" (fun v2 => v2 ≤ fwds.htlc_out))
         (candM (checkInt conf "chan.max_sats_in" (fun v2 => fwds.sat_in ≤ v2))
         (candM (checkInt conf "chan.min_sats_in" (fun v2 => v2 ≤ fwds.sat_in))
         (candM (checkInt conf "chan.max_sats_out" (fun v2 => fwds.sat_out ≤ v2))
                (checkInt conf "chan.min_sats_out" (fun v2 => v2 ≤ fwds.sat_out))))))))

/-- Lines 234-279 of the source: fetch the global info (absence is a
non-match), derive the channel age from its scid opening block, then the
inclusive age bounds and the activity criterion. -/
def ageChecks (lnd : Lnd) (channel : Channel) (conf : Config) :
    Except String Bool :=
  match lnd.get_info with
  | none => .ok false
  | some info =>
    let block := (lnd_to_cl_scid channel.chan_id).1
    let age : Int := info.block_height - (block : Int)
    candM (checkInt conf "chan.min_age" (fun v => v ≤ age))
   (candM (checkInt conf "chan.max_age" (fun v => age ≤ v))
          (activityChecks lnd channel conf age))

/-- `Policies.match_by_chan`: schema check then the criterion sequence of the
source, each stage short-circuiting on a failed criterion (`return False`) and
propagating raised exceptions. -/
def match_by_chan (lnd : Lnd) (fs : FS) (channel : Channel) (conf : Config) :
    Except String Bool :=
  match keysCheck "chan" acceptedChan conf with
  | .error e => .error e
  | .ok _ =>
    candM (chanIdCheck fs channel conf)
   (candM (chanFlagChecks channel conf)
   (candM (balanceChecks channel conf)
   (candM (feeChecks lnd channel conf)
          (ageChecks lnd channel conf))))

/-- The namespace prefixes of the dotted keys of a section, in key order,
one entry per dotted key (`eval_matchers` collects them with duplicates). -/
def extractNamespaces (conf : Config) : List String :=
  conf.keyList.filterMap (fun k =>
    let parts := pySplit '.' k
    if parts.length > 1 then some parts.headI else none)

/-- The loop body of `eval_matchers`: walk the namespace occurrences in key
order; an unrecognized namespace is an immediate non-match (with a warning in
the source); a recognized one conjoins its matcher's verdict, short-circuited
by Python `and` once the accumulator is False. -/
def matchersLoop (lnd : Lnd) (fs : FS) (channel : Channel) (conf : Config) :
    List String → Bool → Except String Bool
  | [], m => .ok m
  | ns :: rest, m =>
    if ns = "chan" then
      match (if m then match_by_chan lnd fs channel conf else .ok false) with
      | .error e => .error e
      | .ok m2 => matchersLoop lnd fs channel conf rest m2
    else if ns = "node" then
      match (if m then match_by_node lnd fs channel conf else .ok false) with
      | .error e => .error e
      | .ok m2 => matchersLoop lnd fs channel conf rest m2
    else .ok false

/-- `Policies.eval_matchers` (the policy name is only used for logging). -/
def eval_matchers (lnd : Lnd) (fs : FS) (channel : Channel)
    (_policy_name : String) (conf : Config) : Except String Bool :=
  matchersLoop lnd fs channel conf (extractNamespaces conf) true

/-- The accumulating `Policy` object: terminal name, bound-strategy flag
(`StrategyDelegate` itself is an external collaborator) and merged config. -/
structure Policy where
  name : Option String := none
  strategy : Bool := false
  config : Config := []
deriving Repr, DecidableEq

/-- `Policy.apply`: mask the section over the collected config; the policy
becomes final exactly when the section's own `strategy` value is truthy. -/
def Policy.apply (p : Policy) (policy_name : String) (policy_config : Config) :
    Policy × Bool :=
  let cfg := Config.mergeInto p.config policy_config
  match policy_config.lookup "strategy" with
  | some v =>
    if v.truthy then ({ name := some policy_name, strategy := true, config := cfg }, true)
    else ({ p with config := cfg }, false)
  | none => ({ p with config := cfg }, false)

/-- The configuration provider (external, spec section 6): ordered policy
sections by name, plus an optional default section. -/
structure Conf where
  policies : List (String × Config)
  default : Option Config

/-- The `for policy_name in self.config.policies` loop of `get_policy_for`:
apply each matching section in order, returning as soon as one is final;
any raised exception propagates out of the loop. -/
def get_policy_for_aux (lnd : Lnd) (fs : FS) (channel : Channel) :
    List (String × Config) → Policy → Except String (Policy × Bool)
  | [], pol => .ok (pol, false)
  | (name, conf) :: rest, pol =>
    match eval_matchers lnd fs channel name conf with
    | .error e => .error e
    | .ok m =>
      if m then
        let applied := pol.apply name conf
        if applied.2 then .ok (applied.1, true)
        else get_policy_for_aux lnd fs channel rest applied.1
      else get_policy_for_aux lnd fs channel rest pol

/-- `Policies.get_policy_for`: scan the policies; a raised exception is caught,
logged and turned into `none`; a terminal match is returned; otherwise the
default section is applied and returned only if it makes the policy final. -/
def get_policy_for (lnd : Lnd) (fs : FS) (cfg : Conf) (channel : Channel) :
    Option Policy :=
  match get_policy_for_aux lnd fs channel cfg.policies {} with
  | .error _ => none
  | .ok (pol, true) => some pol
  | .ok (pol, false) =>
    match cfg.default with
    | some d =>
      let applied := pol.apply "default" d
      if applied.2 then some applied.1 else none
    | none => none

/-! ### Reference definitions written from the spec (for refinement claims) -/

/-- Reference resolution fold, written from the wording of spec section 4.6:
walk the policies in declared order, merge each matching section last-write-wins
into the accumulator, and stop at the first matching section whose `strategy`
value is truthy, returning its name and the merged snapshot.  `m` abstracts the
matcher verdicts. -/
def specScan (m : String → Config → Bool) :
    List (String × Config) → Config → Option String × Config
  | [], acc => (none, acc)
  | (n, c) :: ps, acc =>
    if m n c then
      let acc2 := Config.mergeInto acc c
      if ((c.lookup "strategy").map Val.truthy).getD false then (some n, acc2)
      else specScan m ps acc2
    else specScan m ps acc

/-- Packaging of a `specScan` outcome as the resolver's `Policy` object:
a terminal name makes the policy final and named, otherwise the incoming
policy just carries the merged snapshot. -/
def specResult (pol : Policy) : Option String × Config → Policy × Bool
  | (some n, cfg) => ({ name := some n, strategy := true, config := cfg }, true)
  | (none, cfg) => ({ pol with config := cfg }, false)

/-- The pubkey-token predicate as the spec words it: exactly 66 lowercase
hexadecimal characters (to be compared with the source's `pubkeyTokenOk`,
whose character class is `[0-9a-z]`). -/
def specLowerHex66 (s : String) : Bool :=
  s.length = 66 && s.toList.all (fun c => c.isDigit || ('a' ≤ c && c ≤ 'f'))

/-! ### Concrete instances used by witnesses and counterexamples -/

/-- A gateway stub where every lookup succeeds. -/
def lndStub : Lnd where
  get_node_info := fun _ => ⟨5, 1000⟩
  get_chan_info := fun _ => some ⟨"me", "peer", ⟨10, 20⟩, ⟨30, 40⟩⟩
  get_own_pubkey := "me"
  get_info := some ⟨100⟩
  get_forward_history := fun _ _ => ⟨1, 2, 3, 4⟩

/-- A gateway stub whose channel-info lookup finds nothing. -/
def lndNoChanInfo : Lnd :=
  { lndStub with get_chan_info := fun _ => none }

/-- A gateway stub whose global-info lookup finds nothing. -/
def lndNoGlobalInfo : Lnd :=
  { lndStub with get_info := none }

/-- A gateway stub with parameterized remote-node statistics. -/
def lndNodeStats (nc tc : Int) : Lnd where
  get_node_info := fun _ => ⟨nc, tc⟩
  get_chan_info := fun _ => none
  get_own_pubkey := ""
  get_info := none
  get_forward_history := fun _ _ => ⟨0, 0, 0, 0⟩

/-- A gateway stub with parameterized peer fee policy, block height and
forwarding aggregates. -/
def lndChanStats (bf fp bh hi ho si so : Int) : Lnd where
  get_node_info := fun _ => ⟨0, 0⟩
  get_chan_info := fun _ => some ⟨"n1", "n2", ⟨bf, fp⟩, ⟨bf, fp⟩⟩
  get_own_pubkey := "n2"
  get_info := some ⟨bh⟩
  get_forward_history := fun _ _ => ⟨hi, ho, si, so⟩

/-- An empty file system: every open raises. -/
def fsEmpty : FS := fun _ => none

/-- A 100-sat channel holding 30 local / 70 remote (the spec's ratio example). -/
def chanStub : Channel := ⟨0, "peer2", 100, 30, 70, false, false⟩

/-- A channel with parameterized balances and capacity. -/
def chanBal (p q cap : Int) : Channel := ⟨0, "pk", cap, p, q, false, false⟩

/-- The balance ratio of a `chanBal p q` channel. -/
def ratioOf (p q : Int) : Rat := (p : Rat) / ((p : Rat) + (q : Rat))

/-- A section pinning all four node bounds exactly at the stub node's
statistics. -/
def confNodeEq (nc tc : Int) : Config :=
  [("node.min_channels", .int nc), ("node.max_channels", .int nc),
   ("node.min_capacity", .int tc), ("node.max_capacity", .int tc)]

/-- A section pinning every numeric channel bound exactly at the channel,
peer-policy and forwarding values of `chanBal p q cap` under
`lndChanStats bf fp bh hi ho si so`. -/
def confChanEq (p q cap bf fp bh hi ho si so : Int) : Config :=
  [("chan.min_ratio", .rat (ratioOf p q)), ("chan.max_ratio", .rat (ratioOf p q)),
   ("chan.min_capacity", .int cap), ("chan.max_capacity", .int cap),
   ("chan.min_local_balance", .int p), ("chan.max_local_balance", .int p),
   ("chan.min_remote_balance", .int q), ("chan.max_remote_balance", .int q),
   ("chan.min_base_fee_msat", .int bf), ("chan.max_base_fee_msat", .int bf),
   ("chan.min_fee_ppm", .int fp), ("chan.max_fee_ppm", .int fp),
   ("chan.min_age", .int bh), ("chan.max_age", .int bh),
   ("chan.activity_period", .str "0"),
   ("chan.min_htlcs_in", .int hi), ("chan.max_htlcs_in", .int hi),
   ("chan.min_htlcs_out", .int ho), ("chan.max_htlcs_out", .int ho),
   ("chan.min_sats_in", .int si), ("chan.max_sats_in", .int si),
   ("chan.min_sats_out", .int so), ("chan.max_sats_out", .int so)]

/-- A section whose only criterion is an unknown-suffix `chan` key, preceded
by a failing `node.id` membership criterion. -/
def confMixed : Config := [("node.id", .list ["ab"]), ("chan.bogus", .str "1")]

/-- A section declaring `strategy` with an empty (falsy) value. -/
def confEmptyStrategy : Config := [("strategy", .str ""), ("k", .str "v")]

/-- A single-policy configuration whose only policy declares an empty
`strategy` value and no matchers. -/
def cfgEmptyStrategy : Conf := ⟨[("a", confEmptyStrategy)], none⟩

/-- A configuration with no policies and a default section that declares no
strategy. -/
def cfgDefaultNoStrategy : Conf := ⟨[], some [("x", .str "1")]⟩

/-- A channel on which the activity-period criterion is reached (nonzero
balances, known channel info and global info under `lndStub`). -/
def chanAct : Channel := ⟨0, "p", 100, 1, 1, false, false⟩

/-- A section whose only criterion is a malformed activity period. -/
def confBadPeriod : Config := [("chan.activity_period", .str "5x")]

/-- The spec's ratio example: a terminal policy bounding the ratio above
by 0.25. -/
def confMaxRatioQ : Config := [("chan.max_ratio", .rat (1/4)), ("strategy", .str "x")]

/-- The spec's ratio example: a terminal policy bounding the ratio below
by 0.25. -/
def confMinRatioQ : Config := [("chan.min_ratio", .rat (1/4)), ("strategy", .str "x")]

/-- A channel with zero local and remote balance. -/
def chanZero : Channel := ⟨0, "p", 0, 0, 0, false, false⟩

/-- A section whose only criterion is a minimum-capacity bound of 1. -/
def confMinCap : Config := [("chan.min_capacity", .int 1)]

/-- A section whose only criterion is a minimum-capacity bound of 0. -/
def confMinCap0 : Config := [("chan.min_capacity", .int 0)]

/-- A section whose only criterion is `chan.initiator = true`. -/
def confInitiator : Config := [("chan.initiator", .bool true)]

/-- A 66-character pubkey entry of lowercase letters outside the hexadecimal
range. -/
def zz66 : String := String.mk (List.replicate 66 'z')

/-- A file system holding one pubkey list file whose single entry is `zz66`. -/
def fsZ66 : FS := fun p => if p = "zf" then some zz66 else none

/-- The spec's two-entry pubkey list example: one entry with a trailing
comment, a line break, a second entry. -/
def pkA : String := "02" ++ String.mk (List.replicate 64 'a')

/-- Second pubkey of the two-entry example. -/
def pkB : String := "03" ++ String.mk (List.replicate 64 'b')

/-- A file system holding the two-entry pubkey list example. -/
def fsTwoPk : FS :=
  fun p => if p = "pl" then some (pkA ++ " # comment\n" ++ pkB) else none

/-! ### Helper lemmas -/

theorem candM_true (b : Except String Bool) : candM (.ok true) b = b := rfl

theorem candM_false (b : Except String Bool) : candM (.ok false) b = .ok false := rfl

theorem candM_error (e : String) (b : Except String Bool) :
    candM (.error e) b = .error e := rfl

theorem candM_eq_ok_true {a b : Except String Bool} :
    candM a b = .ok true ↔ a = .ok true ∧ b = .ok true := by
  cases a with
  | error e => simp [candM]
  | ok v => cases v <;> simp [candM]

theorem checkInt_absent {conf : Config} {k : String} (t : Int → Bool)
    (h : conf.lookup k = none) : checkInt conf k t = .ok true := by
  unfold checkInt
  rw [h]

theorem checkRat_absent {conf : Config} {k : String} (t : Rat → Bool)
    (h : conf.lookup k = none) : checkRat conf k t = .ok true := by
  unfold checkRat
  rw [h]

theorem checkBool_absent {conf : Config} {k : String} (t : Bool → Bool)
    (h : conf.lookup k = none) : checkBool conf k t = .ok true := by
  unfold checkBool
  rw [h]

theorem match_by_node_ok_true_iff {lnd : Lnd} {fs : FS} {channel : Channel}
    {conf : Config} :
    match_by_node lnd fs channel conf = .ok true ↔
    keysCheck "node" acceptedNode conf = .ok () ∧
    nodeIdCheck fs channel conf = .ok true ∧
    checkInt conf "node.min_channels"
      (fun v => v ≤ (lnd.get_node_info channel.remote_pubkey).num_channels) = .ok true ∧
    checkInt conf "node.max_channels"
      (fun v => (lnd.get_node_info channel.remote_pubkey).num_channels ≤ v) = .ok true ∧
    checkInt conf "node.min_capacity"
      (fun v => v ≤ (lnd.get_node_info channel.remote_pubkey).total_capacity) = .ok true ∧
    checkInt conf "node.max_capacity"
      (fun v => (lnd.get_node_info channel.remote_pubkey).total_capacity ≤ v) = .ok true := by
  unfold match_by_node
  cases hk : keysCheck "node" acceptedNode conf with
  | error e => simp
  | ok u => cases u; simp [candM_eq_ok_true, and_assoc]

theorem match_by_chan_ok_true_iff {lnd : Lnd} {fs : FS} {channel : Channel}
    {conf : Config} :
    match_by_chan lnd fs channel conf = .ok true ↔
    keysCheck "chan" acceptedChan conf = .ok () ∧
    chanIdCheck fs channel conf = .ok true ∧
    chanFlagChecks channel conf = .ok true ∧
    balanceChecks channel conf = .ok true ∧
    feeChecks lnd channel conf = .ok true ∧
    ageChecks lnd channel conf = .ok true := by
  unfold match_by_chan
  cases hk : keysCheck "chan" acceptedChan conf with
  | error e => simp
  | ok u => cases u; simp [candM_eq_ok_true, and_assoc]

theorem aux_nomatch (lnd : Lnd) (fs : FS) (channel : Channel) :
    ∀ (ps : List (String × Config)) (pol : Policy),
    (∀ p ∈ ps, eval_matchers lnd fs channel p.1 p.2 = .ok false) →
    get_policy_for_aux lnd fs channel ps pol = .ok (pol, false) := by
  intro ps
  induction ps with
  | nil => intro pol _; rfl
  | cons hd tl ih =>
    intro pol h
    have h1 := h hd (List.mem_cons_self _ _)
    obtain ⟨name, conf⟩ := hd
    simp only [get_policy_for_aux, h1]
    exact ih pol (fun p hp => h p (List.mem_cons_of_mem _ hp))

/-! ### C2 — errors during a channel's resolution are caught -/

/-- C2: any exception raised while matching or merging during the policy scan
is caught inside `get_policy_for`, which returns no policy (`none`) instead of
propagating it; shown in general, and concretely for an unknown-key error, a
malformed activity period, and a propagated file IO failure. -/
theorem resolution_errors_are_caught :
    (∀ (lnd : Lnd) (fs : FS) (cfg : Conf) (channel : Channel) (e : String),
      get_policy_for_aux lnd fs channel cfg.policies {} = .error e →
      get_policy_for lnd fs cfg channel = none) ∧
    (get_policy_for_aux lndStub fsEmpty chanStub
        [("p", [("chan.bogus", .str "1")])] {} = .error "Unknown property chan.bogus" ∧
      get_policy_for lndStub fsEmpty ⟨[("p", [("chan.bogus", .str "1")])], none⟩ chanStub = none) ∧
    (get_policy_for_aux lndStub fsEmpty chanAct [("p", confBadPeriod)] {} = .error "KeyError" ∧
      get_policy_for lndStub fsEmpty ⟨[("p", confBadPeriod)], none⟩ chanAct = none) ∧
    (get_policy_for_aux lndStub fsEmpty chanStub
        [("p", [("node.id", .list ["file://nope"])])] {} = .error "IOError file://nope" ∧
      get_policy_for lndStub fsEmpty
        ⟨[("p", [("node.id", .list ["file://nope"])])], none⟩ chanStub = none) := by
  refine ⟨?_, ⟨by decide, by decide⟩, ⟨by decide, by decide⟩, ⟨by decide, by decide⟩⟩
  intro lnd fs cfg channel e h
  unfold get_policy_for
  rw [h]

/-- Witness for C2: a channel whose policy raises an unknown-property error
resolves to no policy. -/
theorem resolution_errors_are_caught_witness :
    get_policy_for lndStub fsEmpty ⟨[("w", [("chan.nope", .str "1")])], none⟩ chanStub = none :=
  resolution_errors_are_caught.1 lndStub fsEmpty
    ⟨[("w", [("chan.nope", .str "1")])], none⟩ chanStub
    "Unknown property chan.nope" (by decide)

/-! ### C3 — no match and no default is a quiet no-assignment -/

/-- C3: when no policy in the list matches the channel and no default section
is configured, the scan completes without error and resolution returns no
policy. -/
theorem no_match_no_default_yields_none
    (lnd : Lnd) (fs : FS) (cfg : Conf) (channel : Channel)
    (hdef : cfg.default = none)
    (hm : ∀ p ∈ cfg.policies, eval_matchers lnd fs channel p.1 p.2 = .ok false) :
    get_policy_for_aux lnd fs channel cfg.policies {} = .ok ({}, false) ∧
    get_policy_for lnd fs cfg channel = none := by
  have h1 := aux_nomatch lnd fs channel cfg.policies {} hm
  refine ⟨h1, ?_⟩
  unfold get_policy_for
  rw [h1, hdef]

/-- Witness for C3: a policy whose `node.id` list misses the channel's peer,
with no default configured. -/
theorem no_match_no_default_yields_none_witness :
    get_policy_for_aux lndStub fsEmpty chanStub
        [("a", [("node.id", .list ["notpeer"])])] {} = .ok ({}, false) ∧
    get_policy_for lndStub fsEmpty
        ⟨[("a", [("node.id", .list ["notpeer"])])], none⟩ chanStub = none :=
  no_match_no_default_yields_none lndStub fsEmpty
    ⟨[("a", [("node.id", .list ["notpeer"])])], none⟩ chanStub rfl (by decide)

/-! ### C4 — the default section -/

/-- C4 (amended): when the scan ends without a terminal match and a default
section is configured, the default is applied with the same last-write-wins
merge rule, but the result is returned only when the default section itself
declares a truthy `strategy`; otherwise resolution returns no policy. -/
theorem default_section_application
    (lnd : Lnd) (fs : FS) (cfg : Conf) (channel : Channel) (pol : Policy) (d : Config)
    (h1 : get_policy_for_aux lnd fs channel cfg.policies {} = .ok (pol, false))
    (h2 : cfg.default = some d) :
    get_policy_for lnd fs cfg channel =
      (if ((d.lookup "strategy").map Val.truthy).getD false
       then some (pol.apply "default" d).1 else none) ∧
    (pol.apply "default" d).1.config = Config.mergeInto pol.config d := by
  constructor
  · unfold get_policy_for
    rw [h1, h2]
    unfold Policy.apply
    cases hs : d.lookup "strategy" with
    | none => simp [hs]
    | some v => cases hv : v.truthy <;> simp [hs, hv]
  · unfold Policy.apply
    cases hs : d.lookup "strategy" with
    | none => simp [hs]
    | some v => cases hv : v.truthy <;> simp [hs, hv]

/-- Witness for C4: an empty policy list with a terminal default section. -/
theorem default_section_application_witness :
    get_policy_for lndStub fsEmpty ⟨[], some [("strategy", .str "s")]⟩ chanStub =
      (if ((Config.lookup [("strategy", .str "s")] "strategy").map Val.truthy).getD false
       then some (Policy.apply {} "default" [("strategy", .str "s")]).1 else none) ∧
    (Policy.apply {} "default" [("strategy", .str "s")]).1.config =
      Config.mergeInto (Policy.config {}) [("strategy", .str "s")] :=
  default_section_application lndStub fsEmpty
    ⟨[], some [("strategy", .str "s")]⟩ chanStub {} [("strategy", .str "s")] rfl rfl

/-- Counterexample for C4 as stated: a configured default section that
declares no strategy is applied but NOT returned — resolution yields no
policy, not a DEFAULTED success. -/
theorem default_section_not_always_returned :
    cfgDefaultNoStrategy.default.isSome = true ∧
    get_policy_for_aux lndStub fsEmpty chanStub cfgDefaultNoStrategy.policies {} =
      .ok ({}, false) ∧
    get_policy_for lndStub fsEmpty cfgDefaultNoStrategy chanStub = none :=
  ⟨rfl, rfl, rfl⟩

/-! ### C8 — the activity-period mini-language -/

/-- C8: the activity-period parser maps "5m" to 300, "3h" to 10800 and "90" to
90 seconds; every non-integer token whose last character is not one of
s/m/h/d fails with a lookup error (KeyError); and such a failure propagates
out of the matcher and fails the channel's resolution (no silent default). -/
theorem activity_period_semantics :
    parse_activity_period "5m" = .ok 300 ∧
    parse_activity_period "3h" = .ok 10800 ∧
    parse_activity_period "90" = .ok 90 ∧
    (∀ t : String, pyToInt? t = none → t.toList.getLast? ≠ none →
      mulmap ((t.toList.getLast?).getD ' ') = none →
      parse_activity_period t = .error "KeyError") ∧
    (get_policy_for_aux lndStub fsEmpty chanAct [("q", confBadPeriod)] {} = .error "KeyError" ∧
      get_policy_for lndStub fsEmpty ⟨[("q", confBadPeriod)], none⟩ chanAct = none) := by
  refine ⟨by decide, by decide, by decide, ?_, ⟨by decide, by decide⟩⟩
  intro t h1 h2 h3
  cases hl : t.toList.getLast? with
  | none => exact absurd hl h2
  | some c =>
    rw [hl] at h3
    simp only [Option.getD] at h3
    unfold parse_activity_period
    simp only [h1, hl, h3]

/-- Witness for C8: the bad-suffix token "7x". -/
theorem activity_period_semantics_witness :
    parse_activity_period "7x" = .error "KeyError" :=
  activity_period_semantics.2.2.2.1 "7x" (by decide) (by decide) (by decide)

/-! ### C9 — the unconditional ratio division -/

/-- C9 (amended): on a channel with `local_balance + remote_balance = 0`, any
policy section that passes the chan-key schema check and configures none of
`chan.id`, `chan.initiator`, `chan.private` drives `match_by_chan` into the
division by zero — the ratio is computed before any ratio bound is looked up.
(Sections whose id/initiator/private or schema checks fail first never reach
the division.) -/
theorem zero_balance_division_reached
    (lnd : Lnd) (fs : FS) (channel : Channel) (conf : Config)
    (h0 : channel.local_balance + channel.remote_balance = 0)
    (h1 : keysCheck "chan" acceptedChan conf = .ok ())
    (h2 : conf.lookup "chan.id" = none)
    (h3 : conf.lookup "chan.initiator" = none)
    (h4 : conf.lookup "chan.private" = none) :
    match_by_chan lnd fs channel conf = .error "ZeroDivisionError" := by
  unfold match_by_chan
  rw [h1]
  have e1 : chanIdCheck fs channel conf = .ok true := by
    unfold chanIdCheck
    rw [h2]
  have e2 : chanFlagChecks channel conf = .ok true := by
    unfold chanFlagChecks
    rw [checkBool_absent _ h3, candM_true, checkBool_absent _ h4]
  have e3 : balanceChecks channel conf = .error "ZeroDivisionError" := by
    unfold balanceChecks
    rw [if_pos h0]
  rw [e1, candM_true, e2, candM_true, e3, candM_error]

/-- Witness for C9: a zero-balance channel with a pure capacity bound. -/
theorem zero_balance_division_reached_witness :
    match_by_chan lndStub fsEmpty chanZero confMinCap = .error "ZeroDivisionError" :=
  zero_balance_division_reached lndStub fsEmpty chanZero confMinCap
    (by decide) (by decide) (by decide) (by decide) (by decide)

/-- Counterexample for C9 as stated: a zero-balance channel evaluated against
a section containing a chan-namespace key (`chan.initiator`) returns an
ordinary non-match, with no division by zero, because the initiator check
fails before the ratio is computed. -/
theorem zero_balance_division_not_always_reached :
    extractNamespaces confInitiator = ["chan"] ∧
    chanZero.local_balance + chanZero.remote_balance = 0 ∧
    match_by_chan lndStub fsEmpty chanZero confInitiator = .ok false := by
  refine ⟨by decide, by decide, by decide⟩

/-! ### C10 — absent gateway records never match -/

/-- C10: `match_by_chan` reaches the channel-info and global-info lookups
unconditionally once the earlier criteria pass, and an absent record makes the
whole policy a non-match: with `get_chan_info` or `get_info` returning
nothing, no section can ever match — shown in general, and concretely for a
section with no fee, age or activity criteria at all. -/
theorem absent_lookups_never_match :
    (∀ (lnd : Lnd) (fs : FS) (channel : Channel) (conf : Config),
      lnd.get_chan_info channel.chan_id = none →
      match_by_chan lnd fs channel conf ≠ .ok true) ∧
    (∀ (lnd : Lnd) (fs : FS) (channel : Channel) (conf : Config),
      lnd.get_info = none →
      match_by_chan lnd fs channel conf ≠ .ok true) ∧
    match_by_chan lndNoChanInfo fsEmpty chanStub confMinCap0 = .ok false ∧
    match_by_chan lndNoGlobalInfo fsEmpty chanStub confMinCap0 = .ok false := by
  refine ⟨?_, ?_, by decide, by decide⟩
  · intro lnd fs channel conf h hc
    rw [match_by_chan_ok_true_iff] at hc
    obtain ⟨-, -, -, -, hfee, -⟩ := hc
    unfold feeChecks at hfee
    rw [h] at hfee
    exact absurd hfee (by simp)
  · intro lnd fs channel conf h hc
    rw [match_by_chan_ok_true_iff] at hc
    obtain ⟨-, -, -, -, -, hage⟩ := hc
    unfold ageChecks at hage
    rw [h] at hage
    exact absurd hage (by simp)

/-- Witness for C10: under a gateway with no channel info, a trivial
capacity-only section cannot match. -/
theorem absent_lookups_never_match_witness :
    match_by_chan lndNoChanInfo fsEmpty chanAct confMinCap0 ≠ .ok true :=
  absent_lookups_never_match.1 lndNoChanInfo fsEmpty chanAct confMinCap0 rfl

/-! ### C5 — all numeric range checks are inclusive -/

/-- C5: every numeric range check of the matchers is inclusive on both bounds:
with every node bound pinned exactly at the node's statistics the node matcher
succeeds, and with every channel bound (ratio, capacity, balances, fees, age,
htlcs, sats) pinned exactly at the channel's values the channel matcher
succeeds; and on the spec's 30/70 channel, `chan.max_ratio 0.25` fails while
`chan.min_ratio 0.25` matches. -/
theorem range_checks_inclusive :
    (∀ nc tc : Int,
      match_by_node (lndNodeStats nc tc) fsEmpty chanStub (confNodeEq nc tc) = .ok true) ∧
    (∀ p q cap bf fp bh hi ho si so : Int, p + q ≠ 0 → 0 ≤ bh →
      match_by_chan (lndChanStats bf fp bh hi ho si so) fsEmpty (chanBal p q cap)
        (confChanEq p q cap bf fp bh hi ho si so) = .ok true) ∧
    eval_matchers lndStub fsEmpty chanStub "x" confMaxRatioQ = .ok false ∧
    eval_matchers lndStub fsEmpty chanStub "x" confMinRatioQ = .ok true := by
  refine ⟨?_, ?_, ?_, ?_⟩
  · intro nc tc
    rw [match_by_node_ok_true_iff]
    refine ⟨rfl, rfl, ?_, ?_, ?_, ?_⟩ <;>
      simp [checkInt, confNodeEq, Config.lookup, Val.toIntE, lndNodeStats]
  · intro p q cap bf fp bh hi ho si so hpq hbh
    rw [match_by_chan_ok_true_iff]
    refine ⟨rfl, rfl, rfl, ?_, ?_, ?_⟩
    · unfold balanceChecks
      simp only [chanBal]
      rw [if_neg hpq]
      simp [candM, checkRat, checkInt, confChanEq, Config.lookup, Val.toRatE,
        Val.toIntE, ratioOf]
    · simp [feeChecks, lndChanStats, candM, checkInt, confChanEq, Config.lookup,
        Val.toIntE]
    · have hp0 : parse_activity_period "0" = .ok 0 := by decide
      have hg : ¬ ((bh - ((0:Nat):Int)) * (10 * 60) < 0) := by
        simp only [Nat.cast_zero, sub_zero]
        omega
      simp [ageChecks, activityChecks, lndChanStats, lnd_to_cl_scid, chanBal,
        candM, checkInt, confChanEq, Config.lookup, Val.toIntE, Val.toStrE,
        hp0, hg, hbh]
  · unfold eval_matchers
    rw [show extractNamespaces confMaxRatioQ = ["chan"] from by decide]
    unfold matchersLoop
    have hmc : match_by_chan lndStub fsEmpty chanStub confMaxRatioQ = .ok false := by
      unfold match_by_chan
      rw [show keysCheck "chan" acceptedChan confMaxRatioQ = .ok () from by decide]
      rw [show chanIdCheck fsEmpty chanStub confMaxRatioQ = .ok true from by decide,
        candM_true]
      rw [show chanFlagChecks chanStub confMaxRatioQ = .ok true from by decide,
        candM_true]
      have hbal : balanceChecks chanStub confMaxRatioQ = .ok false := by
        unfold balanceChecks
        simp only [chanStub]
        rw [if_neg (by decide)]
        simp [candM, checkRat, confMaxRatioQ, Config.lookup, Val.toRatE]
        norm_num
      rw [hbal, candM_false]
    rw [hmc]
    rfl
  · unfold eval_matchers
    rw [show extractNamespaces confMinRatioQ = ["chan"] from by decide]
    unfold matchersLoop
    have hmc : match_by_chan lndStub fsEmpty chanStub confMinRatioQ = .ok true := by
      rw [match_by_chan_ok_true_iff]
      refine ⟨by decide, by decide, by decide, ?_, by decide, by decide⟩
      unfold balanceChecks
      simp only [chanStub]
      rw [if_neg (by decide)]
      simp [candM, checkRat, checkInt, confMinRatioQ, Config.lookup, Val.toRatE]
      norm_num
    rw [hmc]
    rfl

/-- Witness for C5: the channel-bound conjunct instantiated at concrete
values. -/
theorem range_checks_inclusive_witness :
    match_by_chan (lndChanStats 3 4 5 6 7 8 9) fsEmpty (chanBal 1 1 2)
      (confChanEq 1 1 2 3 4 5 6 7 8 9) = .ok true :=
  range_checks_inclusive.2.1 1 1 2 3 4 5 6 7 8 9 (by decide) (by decide)

/-! ### C6 — unknown namespaces versus unknown keys -/

/-- C6 (amended): the asymmetry holds per namespace occurrence, in key order:
when the first namespace occurrence is unrecognized, the policy is a non-match
without raising; when the first occurrence is `chan` (resp. `node`) and that
namespace's schema check rejects a key, the channel's resolution aborts with
the Unknown-property error.  (If an earlier recognized namespace fails to
match first, a later unknown-suffix key is never reached — see the
counterexample.) -/
theorem schema_error_asymmetry :
    (∀ (lnd : Lnd) (fs : FS) (channel : Channel) (name : String) (conf : Config)
        (ns : String) (rest : List String),
      extractNamespaces conf = ns :: rest → ns ≠ "chan" → ns ≠ "node" →
      eval_matchers lnd fs channel name conf = .ok false) ∧
    (∀ (lnd : Lnd) (fs : FS) (channel : Channel) (name : String) (conf : Config)
        (rest : List String) (e : String),
      extractNamespaces conf = "chan" :: rest →
      keysCheck "chan" acceptedChan conf = .error e →
      eval_matchers lnd fs channel name conf = .error e) ∧
    (∀ (lnd : Lnd) (fs : FS) (channel : Channel) (name : String) (conf : Config)
        (rest : List String) (e : String),
      extractNamespaces conf = "node" :: rest →
      keysCheck "node" acceptedNode conf = .error e →
      eval_matchers lnd fs channel name conf = .error e) := by
  refine ⟨?_, ?_, ?_⟩
  · intro lnd fs channel name conf ns rest hext h1 h2
    unfold eval_matchers
    rw [hext]
    unfold matchersLoop
    rw [if_neg h1, if_neg h2]
  · intro lnd fs channel name conf rest e hext hk
    unfold eval_matchers
    rw [hext]
    unfold matchersLoop
    rw [if_pos rfl, if_pos rfl]
    unfold match_by_chan
    simp only [hk]
  · intro lnd fs channel name conf rest e hext hk
    unfold eval_matchers
    rw [hext]
    unfold matchersLoop
    rw [if_neg (by decide), if_pos rfl, if_pos rfl]
    unfold match_by_node
    simp only [hk]

/-- Witness for C6: a section whose only dotted key has the unknown namespace
`foo` is a clean non-match. -/
theorem schema_error_asymmetry_witness :
    eval_matchers lndStub fsEmpty chanStub "w" [("foo.bar", .str "1")] = .ok false :=
  schema_error_asymmetry.1 lndStub fsEmpty chanStub "w" [("foo.bar", .str "1")]
    "foo" [] (by decide) (by decide) (by decide)

/-- Counterexample for C6 as stated: a section with an unknown-suffix key
under the known `chan` namespace (`chan.bogus`, flagged by the schema check)
nonetheless resolves to an ordinary non-match — no error aborts the channel —
because the preceding `node.id` criterion already failed and Python's `and`
short-circuits the chan matcher. -/
theorem unknown_suffix_does_not_always_abort :
    keysCheck "chan" acceptedChan confMixed = .error "Unknown property chan.bogus" ∧
    eval_matchers lndStub fsEmpty chanStub "p" confMixed = .ok false :=
  ⟨by decide, by decide⟩

/-! ### C7 — the pubkey list loader -/

theorem nodelist_foldl_eq (l : List String) (acc : List String) :
    l.foldl (fun acc2 raw =>
      let t := cleanId raw
      if pubkeyTokenOk t then acc2 ++ [t] else acc2) acc
    = acc ++ (l.map cleanId).filter pubkeyTokenOk := by
  induction l generalizing acc with
  | nil => simp
  | cons hd tl ih =>
    simp only [List.foldl_cons, List.map_cons, List.filter_cons]
    by_cases h : pubkeyTokenOk (cleanId hd)
    · simp only [h, if_true, ih, List.append_assoc, List.singleton_append]
    · simp only [h, if_false, ih]
      simp [h]

/-- C7 (amended): the pubkey list loader splits the file on commas and line
breaks, strips a trailing `#` comment from each entry, and returns exactly
the cleaned tokens that are 66 characters drawn from `[0-9a-z]` (lowercase
letters or digits — a superset of lowercase hexadecimal); every other token,
blank ones included, is dropped without failing.  The spec's two-entry example
loads to exactly its two pubkeys. -/
theorem pubkey_loader_filters :
    (∀ (fs : FS) (url contents : String),
      fs (pyReplace url "file://" "") = some contents →
      read_nodelist fs url = .ok (((splitIds contents).map cleanId).filter pubkeyTokenOk)) ∧
    read_nodelist fsTwoPk "file://pl" = .ok [pkA, pkB] := by
  constructor
  · intro fs url contents h
    unfold read_nodelist
    simp only [h]
    rw [nodelist_foldl_eq]
    rfl
  · decide

/-- Witness for C7: the filter characterization applied to the two-entry
example file. -/
theorem pubkey_loader_filters_witness :
    read_nodelist fsTwoPk "file://pl" =
      .ok (((splitIds (pkA ++ " # comment\n" ++ pkB)).map cleanId).filter pubkeyTokenOk) :=
  pubkey_loader_filters.1 fsTwoPk "file://pl" (pkA ++ " # comment\n" ++ pkB) (by decide)

/-- Counterexample for C7 as stated: a 66-character token of `z`s is not
lowercase hexadecimal, yet the loader accepts and returns it — the source
pattern is `[0-9a-z]{66}`, wider than the hexadecimal alphabet. -/
theorem pubkey_loader_accepts_nonhex :
    read_nodelist fsZ66 "file://zf" = .ok [zz66] ∧
    specLowerHex66 zz66 = false ∧
    pubkeyTokenOk zz66 = true :=
  ⟨by decide, by decide, by decide⟩

/-! ### C1 — resolution as an ordered, last-write-wins fold -/

theorem lookup_insert (c : Config) (k : String) (v : Val) (k2 : String) :
    (Config.insert c k v).lookup k2 = if k = k2 then some v else c.lookup k2 := by
  induction c with
  | nil => simp [Config.insert, Config.lookup]
  | cons kv rest ih =>
    unfold Config.insert
    by_cases h1 : kv.1 = k
    · rw [if_pos h1]
      by_cases h2 : k = k2
      · simp [Config.lookup, h2]
      · have h3 : kv.1 ≠ k2 := by rw [h1]; exact h2
        simp [Config.lookup, h2, h3]
    · rw [if_neg h1]
      by_cases h2 : kv.1 = k2
      · have h3 : k ≠ k2 := by
          intro hc
          exact h1 (by rw [h2, hc])
        simp [Config.lookup, h2, h3]
      · simp [Config.lookup, h2, ih]

theorem mergeInto_containsKey (c : Config) : ∀ (acc : Config) (k : String),
    (Config.mergeInto acc c).containsKey k = (acc.containsKey k || c.containsKey k) := by
  induction c with
  | nil => intro acc k; simp [Config.mergeInto, Config.containsKey, Config.lookup]
  | cons kv rest ih =>
    intro acc k
    unfold Config.mergeInto at ih ⊢
    simp only [List.foldl_cons]
    rw [ih]
    unfold Config.containsKey
    rw [lookup_insert]
    by_cases h : kv.1 = k
    · simp [Config.lookup, h]
    · simp [Config.lookup, h]

theorem specResult_config_invariant (pol : Policy) (a : Config)
    (x : Option String × Config) :
    specResult { pol with config := a } x = specResult pol x := by
  obtain ⟨tn, cfg⟩ := x
  cases tn <;> rfl

/-- C1 (amended): for every channel and ordered policy list on which no
matcher raises, resolution is exactly the spec's ordered fold `specScan`:
each matching section is merged last-write-wins into the accumulated
configuration, the scan stops at the first matching section whose `strategy`
value is truthy (a section merely declaring an empty `strategy` does not
stop it — see the counterexample), and the merged snapshot keeps the keys of
every earlier matched non-terminal section together with the terminal
section's keys (the `mergeInto` key-set equation). -/
theorem resolution_is_ordered_fold :
    (∀ (lnd : Lnd) (fs : FS) (channel : Channel) (m : String → Config → Bool)
        (ps : List (String × Config)) (pol : Policy),
      (∀ p ∈ ps, eval_matchers lnd fs channel p.1 p.2 = .ok (m p.1 p.2)) →
      get_policy_for_aux lnd fs channel ps pol =
        .ok (specResult pol (specScan m ps pol.config))) ∧
    (∀ (acc c : Config) (k : String),
      (Config.mergeInto acc c).containsKey k = (acc.containsKey k || c.containsKey k)) := by
  refine ⟨?_, fun acc c k => mergeInto_containsKey c acc k⟩
  intro lnd fs channel m ps
  induction ps with
  | nil => intro pol _; rfl
  | cons hd tl ih =>
    intro pol h
    obtain ⟨n, c⟩ := hd
    have h1 := h (n, c) (List.mem_cons_self _ _)
    have h2 := fun p hp => h p (List.mem_cons_of_mem _ hp)
    simp only [get_policy_for_aux, h1]
    cases hm : m n c with
    | false =>
      simp only [Bool.false_eq_true, if_false]
      rw [ih pol h2]
      simp only [specScan, hm, Bool.false_eq_true, if_false]
    | true =>
      simp only [if_true]
      unfold Policy.apply
      cases hs : c.lookup "strategy" with
      | none =>
        simp only [specScan, hm, if_true, hs, Option.map_none', Option.getD_none,
          Bool.false_eq_true, if_false]
        rw [ih _ h2]
        exact congrArg Except.ok (specResult_config_invariant pol _ _)
      | some v =>
        cases hv : v.truthy with
        | false =>
          simp only [specScan, hm, if_true, hs, Option.map_some', Option.getD_some, hv,
            Bool.false_eq_true, if_false]
          rw [ih _ h2]
          exact congrArg Except.ok (specResult_config_invariant pol _ _)
        | true =>
          simp only [specScan, hm, if_true, hs, Option.map_some', Option.getD_some, hv,
            if_true]
          rfl

/-- Witness for C1: a two-policy list (one matcher-less non-terminal section,
one terminal section) resolves to the spec fold's result. -/
theorem resolution_is_ordered_fold_witness :
    get_policy_for_aux lndStub fsEmpty chanStub
        [("a", [("x", .str "1")]),
         ("b", [("chan.min_capacity", .int 1), ("strategy", .str "s")])] {} =
      .ok (specResult {}
        (specScan (fun _ _ => true)
          [("a", [("x", .str "1")]),
           ("b", [("chan.min_capacity", .int 1), ("strategy", .str "s")])]
          (Policy.config {}))) :=
  resolution_is_ordered_fold.1 lndStub fsEmpty chanStub (fun _ _ => true)
    [("a", [("x", .str "1")]),
     ("b", [("chan.min_capacity", .int 1), ("strategy", .str "s")])] {} (by decide)

/-- Counterexample for C1 as stated: a matching policy that declares a
`strategy` key with an empty value does not stop the scan and is not
returned — the source tests the truthiness of the strategy value, not the
presence of the key. -/
theorem strategy_key_alone_does_not_terminate :
    (Config.lookup confEmptyStrategy "strategy").isSome = true ∧
    eval_matchers lndStub fsEmpty chanStub "a" confEmptyStrategy = .ok true ∧
    get_policy_for lndStub fsEmpty cfgEmptyStrategy chanStub = none :=
  ⟨rfl, by decide, by decide⟩

end ChargeLnd
